import Mathlib

/-
Verification of the RFT Ωmega bot (RenderedFrameTheory repository).

The Python sources are shallowly embedded over exact arithmetic:
* Python floats are modeled as rationals (ℚ); transcendental library calls
  (math.sin, math.cos, math.pi) are modeled by an explicit environment
  `MathEnv`, since the claims under verification never depend on their
  analytic values, only on the surrounding arithmetic and control flow.
* Python's pseudo-random draws (`random.uniform`) are explicit inputs,
  collected in a `Draws` record together with their documented ranges.
* A `ZeroDivisionError` is modeled with `Except` where a claim concerns it.
-/

namespace RFTBot

/-- Base parameter dictionary from `RFTEngine.__init__` (src/rft_engine.py:24-30):
omega_obs_base = 1.618, chi_liam_base = 2.718, delta_phi_base = 3.14159,
upsilon_base = 1.414, tau_eff_base = 1.0. The same record type also serves for
`self.current_parameters`, a mutable copy of the base dictionary. -/
structure BaseParams where
  omega_obs_base : ℚ
  chi_liam_base : ℚ
  delta_phi_base : ℚ
  upsilon_base : ℚ
  tau_eff_base : ℚ
deriving DecidableEq

/-- The literal values of `self.base_parameters` (src/rft_engine.py:24-30). -/
def baseParameters : BaseParams :=
  { omega_obs_base := 1.618
    chi_liam_base := 2.718
    delta_phi_base := 3.14159
    upsilon_base := 1.414
    tau_eff_base := 1.0 }

/-- RFT constants from `RFTEngine.__init__` (src/rft_engine.py:37-40).
`PHASE_STABILITY_LIMIT = 2 * math.pi` is kept in `MathEnv` since π is not
rational. -/
def COHERENCE_THRESHOLD : ℚ := 0.707

/-- `TEMPORAL_VARIANCE_MAX = 10.0` (src/rft_engine.py:39). -/
def TEMPORAL_VARIANCE_MAX : ℚ := 10.0

/-- Environment for the transcendental functions used by the engine
(`math.sin`, `math.cos`, `math.pi`). Two executions at the same time against
the same interpreter see the same environment; no claim under verification
depends on the analytic values of these functions. -/
structure MathEnv where
  sin : ℚ → ℚ
  cos : ℚ → ℚ
  pi : ℚ

/-- Per-observer state dictionary created in `_calculate_observer_state`
(src/rft_engine.py:122-128): base_coherence (a random draw for new observers),
interaction_count, challenge_history and synchronization_level. -/
structure ObserverState where
  base_coherence : ℚ
  interaction_count : ℕ
  challenge_history : List String
  synchronization_level : ℚ
deriving DecidableEq

/-- The parameter dictionary built by `RFTEngine.calculate_rft_parameters`
(src/rft_engine.py:101-109). -/
structure RFTParams where
  omega_obs : ℚ
  chi_liam : ℚ
  delta_phi : ℚ
  upsilon : ℚ
  tau_eff : ℚ
  calculation_timestamp : ℚ
  observer_id : ℤ
deriving DecidableEq

/-- Mutable engine state: `self.current_parameters`, `self.observer_states`
(a dict from user id to observer state, modeled as an association list in
insertion order) and `self.calculation_history`. -/
structure EngineState where
  current : BaseParams
  observer_states : List (ℤ × ObserverState)
  calculation_history : List RFTParams
deriving DecidableEq

/-- Processed challenge data as consumed by the engine: the fields read via
`challenge_data.get(...)` in src/rft_engine.py (user_id, type, complexity,
semantic_density, entropy, urgency). `process_challenge` always populates
them, so they are plain fields here. -/
structure ChallengeData where
  user_id : ℤ
  type : String
  complexity : ℚ
  semantic_density : ℚ
  entropy : ℚ
  urgency : ℚ
deriving DecidableEq

/-- The pseudo-random draws made during one challenge evaluation:
`random.uniform(0.8, 1.2)` for a new observer's base coherence
(src/rft_engine.py:124), `random.uniform(-0.1, 0.1)` in
`_calculate_temporal_scaling` (line 228) and `random.uniform(-0.2, 0.2)` in
`_get_observer_type_alignment` (line 415). -/
structure Draws where
  base_coherence : ℚ
  variance : ℚ
  type_variance : ℚ
deriving DecidableEq

/-- The ranges guaranteed for the three `random.uniform` draws. -/
def ValidDraws (d : Draws) : Prop :=
  0.8 ≤ d.base_coherence ∧ d.base_coherence ≤ 1.2 ∧
  -0.1 ≤ d.variance ∧ d.variance ≤ 0.1 ∧
  -0.2 ≤ d.type_variance ∧ d.type_variance ≤ 0.2

instance (d : Draws) : Decidable (ValidDraws d) := by
  unfold ValidDraws
  infer_instance

/-- Dictionary write `self.observer_states[user_id] = st`, preserving
insertion order as a Python dict does. -/
def updateObserver : List (ℤ × ObserverState) → ℤ → ObserverState → List (ℤ × ObserverState)
  | [], uid, st => [(uid, st)]
  | (k, v) :: rest, uid, st =>
      if k = uid then (k, st) :: rest else (k, v) :: updateObserver rest uid st

/-- `RFTEngine._calculate_observer_state` (src/rft_engine.py:118-153).
Returns the computed Ω_obs together with the mutated engine state (the
observer entry is created or updated in place). `baseCoherenceDraw` stands
for `random.uniform(0.8, 1.2)`, used only when the observer is new. -/
def calculateObserverState (env : MathEnv) (t : ℚ) (s : EngineState)
    (baseCoherenceDraw : ℚ) (uid : ℤ) (cd : ChallengeData) : ℚ × EngineState :=
  let ob0 : ObserverState :=
    match s.observer_states.lookup uid with
    | some ob => ob
    | none =>
        { base_coherence := baseCoherenceDraw
          interaction_count := 0
          challenge_history := []
          synchronization_level := 1.0 }
  let ob1 := { ob0 with interaction_count := ob0.interaction_count + 1 }
  let omega1 := s.current.omega_obs_base * ob1.base_coherence
  let experience_factor : ℚ := 1 + (ob1.interaction_count : ℚ) * 0.01
  let omega2 := omega1 * min experience_factor 2.0
  let complexity_modifier := 0.8 + cd.complexity * 0.4
  let omega3 := omega2 * complexity_modifier
  let temporal_coherence := env.cos (t / 3600) * 0.1 + 1
  let omega4 := omega3 * temporal_coherence
  let ob2 := { ob1 with synchronization_level := min (omega4 / s.current.omega_obs_base) 2.0 }
  (omega4, { s with observer_states := updateObserver s.observer_states uid ob2 })

/-- The `type_modifiers` dictionary lookup with default 1.0 in
`_calculate_coherence_coefficient` (src/rft_engine.py:162-172). -/
def typeModifier (challenge_type : String) : ℚ :=
  if challenge_type = "cognitive" then 1.2
  else if challenge_type = "theoretical" then 1.1
  else if challenge_type = "perceptual" then 1.15
  else if challenge_type = "temporal" then 1.3
  else if challenge_type = "quantum" then 1.25
  else if challenge_type = "consciousness" then 1.4
  else if challenge_type = "general" then 1.0
  else 1.0

/-- `RFTEngine._calculate_coherence_coefficient` (src/rft_engine.py:155-183). -/
def calculateCoherenceCoefficient (s : EngineState) (challenge_type : String)
    (complexity : ℚ) : ℚ :=
  let chi1 := s.current.chi_liam_base
  let chi2 := chi1 * typeModifier challenge_type
  let chi3 := chi2 * (0.7 + complexity * 0.6)
  if chi3 > COHERENCE_THRESHOLD * 4 then chi3 * 0.9 else chi3

/-- Python float `%` for a positive divisor: `a - b * ⌊a / b⌋`. -/
def pymod (a b : ℚ) : ℚ := a - b * ⌊a / b⌋

/-- `RFTEngine._calculate_phase_differential` (src/rft_engine.py:185-209).
The 30-minute sinusoid and the `PHASE_STABILITY_LIMIT = 2π` wrap use the
environment. -/
def calculatePhaseDifferential (env : MathEnv) (t : ℚ) (s : EngineState)
    (semantic_density : ℚ) (cd : ChallengeData) : ℚ :=
  let dp1 := s.current.delta_phi_base
  let semantic_factor := semantic_density * 2
  let dp2 := dp1 * (1 + semantic_factor * 0.2)
  let entropy_modifier := 1 + (cd.entropy - 0.5) * 0.3
  let dp3 := dp2 * entropy_modifier
  let phase_shift := env.sin (t / 1800) * 0.5
  let dp4 := dp3 + phase_shift
  let limit := 2 * env.pi
  let dp5 := if dp4 > limit then pymod dp4 limit else dp4
  |dp5|

/-- `RFTEngine._calculate_temporal_scaling` (src/rft_engine.py:211-234).
`varianceDraw` stands for `random.uniform(-0.1, 0.1)`. -/
def calculateTemporalScaling (s : EngineState) (varianceDraw : ℚ) (uid : ℤ)
    (cd : ChallengeData) : ℚ :=
  let u1 := s.current.upsilon_base
  let u2 :=
    match s.observer_states.lookup uid with
    | some ob => u1 * ob.synchronization_level
    | none => u1
  let u3 := u2 * (0.8 + cd.urgency * 0.4)
  let u4 := u3 * (1 + varianceDraw)
  max 0.1 (min u4 TEMPORAL_VARIANCE_MAX)

/-- `RFTEngine._calculate_effective_timing` (src/rft_engine.py:236-258):
the only place in the parameter pipeline with a zero-denominator guard,
substituting 0.001. `tau_eff_base` is read from the immutable
`self.base_parameters`. -/
def calculateEffectiveTiming (s : EngineState)
    (omega_obs chi_liam delta_phi upsilon : ℚ) : ℚ :=
  let numerator := omega_obs * chi_liam
  let denominator0 := delta_phi * upsilon
  let denominator := if denominator0 = 0 then 0.001 else denominator0
  let tau1 := numerator / denominator
  let coherence_factor := min (chi_liam / s.current.chi_liam_base) 2.0
  let tau2 := tau1 * coherence_factor
  tau2 * baseParameters.tau_eff_base

/-- `RFTEngine.calculate_rft_parameters` (src/rft_engine.py:71-116). Returns
the parameter record and the mutated engine state (observer update plus the
append to `calculation_history`). -/
def calculateRFTParameters (env : MathEnv) (t : ℚ) (s : EngineState) (d : Draws)
    (cd : ChallengeData) : RFTParams × EngineState :=
  let uid := cd.user_id
  let (omega_obs, s1) := calculateObserverState env t s d.base_coherence uid cd
  let chi_liam := calculateCoherenceCoefficient s1 cd.type cd.complexity
  let delta_phi := calculatePhaseDifferential env t s1 cd.semantic_density cd
  let upsilon := calculateTemporalScaling s1 d.variance uid cd
  let tau_eff := calculateEffectiveTiming s1 omega_obs chi_liam delta_phi upsilon
  let p : RFTParams :=
    { omega_obs := omega_obs
      chi_liam := chi_liam
      delta_phi := delta_phi
      upsilon := upsilon
      tau_eff := tau_eff
      calculation_timestamp := t
      observer_id := uid }
  (p, { s1 with calculation_history := s1.calculation_history ++ [p] })

/-- Python exceptions relevant here. -/
inductive PyError
  | zeroDivisionError
deriving DecidableEq

/-- The `rft_equation_components` sub-dictionary of
`RFTEngine.render_frame` (src/rft_engine.py:296-300). -/
structure EquationComponents where
  numerator : ℚ
  denominator : ℚ
  equation_balance : ℚ
deriving DecidableEq

/-- `frame_characteristics` built by `_generate_frame_characteristics`
(src/rft_engine.py:344-358). -/
structure FrameCharacteristics where
  coherence_level : ℚ
  temporal_alignment : ℚ
  phase_coherence : ℚ
  observer_resonance : ℚ
  complexity_resolution : ℚ
  frame_type : String
  rendering_quality : String
deriving DecidableEq

/-- The dictionary returned by `RFTEngine.render_frame`
(src/rft_engine.py:288-301). -/
structure RenderedFrame where
  omega_result : ℚ
  stability : ℚ
  confidence : ℚ
  tau_eff : ℚ
  frame_characteristics : FrameCharacteristics
  observer_alignment : ℚ
  rendering_timestamp : ℚ
  rft_equation_components : EquationComponents
deriving DecidableEq

/-- `RFTEngine._determine_frame_type` (src/rft_engine.py:360-370). -/
def determineFrameType (omega_result : ℚ) : String :=
  if omega_result > 2.0 then "high_coherence"
  else if omega_result > 1.0 then "stable_coherence"
  else if omega_result > 0.5 then "moderate_coherence"
  else "low_coherence"

/-- `RFTEngine._calculate_frame_stability` (src/rft_engine.py:307-325). -/
def calculateFrameStability (s : EngineState) (p : RFTParams) : ℚ :=
  let obs_variance := |p.omega_obs - s.current.omega_obs_base| / s.current.omega_obs_base
  let coherence_variance := |p.chi_liam - s.current.chi_liam_base| / s.current.chi_liam_base
  let phase_variance := |p.delta_phi - s.current.delta_phi_base| / s.current.delta_phi_base
  let temporal_variance := |p.upsilon - s.current.upsilon_base| / s.current.upsilon_base
  let total_variance := (obs_variance + coherence_variance + phase_variance + temporal_variance) / 4
  max 0 (1 - total_variance)

/-- `RFTEngine._calculate_rendering_confidence` (src/rft_engine.py:327-342). -/
def calculateRenderingConfidence (omega_result stability tau_eff : ℚ) : ℚ :=
  let omega_confidence := min (|omega_result| / 2) 1.0
  let stability_confidence := stability
  let timing_confidence := min (tau_eff / 2) 1.0
  omega_confidence * 0.4 + stability_confidence * 0.35 + timing_confidence * 0.25

/-- `RFTEngine._assess_rendering_quality` (src/rft_engine.py:372-384). -/
def assessRenderingQuality (s : EngineState) (omega_result : ℚ) (p : RFTParams) : String :=
  let stability := calculateFrameStability s p
  if stability > 0.8 ∧ omega_result > 1.5 then "excellent"
  else if stability > 0.6 ∧ omega_result > 1.0 then "good"
  else if stability > 0.4 ∧ omega_result > 0.5 then "fair"
  else "poor"

/-- `RFTEngine._generate_frame_characteristics` (src/rft_engine.py:344-358). -/
def generateFrameCharacteristics (env : MathEnv) (s : EngineState)
    (omega_result : ℚ) (p : RFTParams) : FrameCharacteristics :=
  { coherence_level := min (p.chi_liam / s.current.chi_liam_base) 2.0
    temporal_alignment := p.tau_eff
    phase_coherence := env.cos p.delta_phi
    observer_resonance := p.omega_obs / s.current.omega_obs_base
    complexity_resolution := omega_result
    frame_type := determineFrameType omega_result
    rendering_quality := assessRenderingQuality s omega_result p }

/-- `RFTEngine._get_observer_type_alignment` (src/rft_engine.py:409-417);
`typeVarianceDraw` stands for `random.uniform(-0.2, 0.2)`. -/
def getObserverTypeAlignment (typeVarianceDraw : ℚ) : ℚ :=
  let base_alignment : ℚ := 0.8
  max 0.1 (min (base_alignment + typeVarianceDraw) 1.0)

/-- `RFTEngine._calculate_observer_alignment` (src/rft_engine.py:386-407). -/
def calculateObserverAlignment (s : EngineState) (d : Draws) (p : RFTParams)
    (cd : ChallengeData) : ℚ :=
  match s.observer_states.lookup p.observer_id with
  | some ob =>
      let base_alignment := ob.synchronization_level
      let type_alignment := getObserverTypeAlignment d.type_variance
      min (base_alignment * 0.7 + type_alignment * 0.3) 1.0
  | none => 0.5

/-- The core division `omega_result = (omega_obs * chi_liam) / (delta_phi *
upsilon)` at src/rft_engine.py:274. Python float division raises
ZeroDivisionError when the denominator is zero; there is no guard. -/
def omegaResultDivision (p : RFTParams) : Except PyError ℚ :=
  if p.delta_phi * p.upsilon = 0 then .error .zeroDivisionError
  else .ok ((p.omega_obs * p.chi_liam) / (p.delta_phi * p.upsilon))

/-- The `equation_balance` component (src/rft_engine.py:299): this line,
unlike line 274, substitutes 0.001 for a vanishing denominator via `max`. -/
def equationBalance (p : RFTParams) : ℚ :=
  (p.omega_obs * p.chi_liam) / max (p.delta_phi * p.upsilon) 0.001

/-- `RFTEngine.render_frame` (src/rft_engine.py:260-305). The unguarded
division at line 274 is evaluated first; the stability and characteristics
computations divide by the current base parameters, which also raises
ZeroDivisionError when any of them is zero (they never are in a live engine,
but the model keeps the check for faithfulness). -/
def renderFrame (env : MathEnv) (t : ℚ) (s : EngineState) (d : Draws)
    (p : RFTParams) (cd : ChallengeData) : Except PyError RenderedFrame :=
  match omegaResultDivision p with
  | .error e => .error e
  | .ok omega_result =>
      if s.current.omega_obs_base = 0 ∨ s.current.chi_liam_base = 0 ∨
          s.current.delta_phi_base = 0 ∨ s.current.upsilon_base = 0 then
        .error .zeroDivisionError
      else
        let stability := calculateFrameStability s p
        let confidence := calculateRenderingConfidence omega_result stability p.tau_eff
        let fc := generateFrameCharacteristics env s omega_result p
        let oa := calculateObserverAlignment s d p cd
        .ok { omega_result := omega_result
              stability := stability
              confidence := confidence
              tau_eff := p.tau_eff
              frame_characteristics := fc
              observer_alignment := oa
              rendering_timestamp := t
              rft_equation_components :=
                { numerator := p.omega_obs * p.chi_liam
                  denominator := p.delta_phi * p.upsilon
                  equation_balance := equationBalance p } }

end RFTBot

namespace RFTBot

/-- A concrete math environment used for witnesses. -/
def env0 : MathEnv := { sin := fun _ => 0, cos := fun _ => 0, pi := 3.14159 }

/-- A fresh engine state: current parameters equal to the base dictionary. -/
def s0 : EngineState :=
  { current := baseParameters, observer_states := [], calculation_history := [] }

/-- Concrete draws within all the `random.uniform` ranges. -/
def d0 : Draws := { base_coherence := 1, variance := 0, type_variance := 0 }

/-- Concrete processed challenge data (all engine defaults). -/
def cd0 : ChallengeData :=
  { user_id := 1, type := "general", complexity := 0.5, semantic_density := 0.5,
    entropy := 0.5, urgency := 0.5 }

/-- A concrete parameter record with nonzero denominator. -/
def p1 : RFTParams :=
  { omega_obs := 2, chi_liam := 3, delta_phi := 1, upsilon := 2, tau_eff := 1,
    calculation_timestamp := 0, observer_id := 1 }

/-- A concrete parameter record whose denominator Δφ · Υ is zero. -/
def pZero : RFTParams :=
  { omega_obs := 2, chi_liam := 3, delta_phi := 0, upsilon := 2, tau_eff := 1,
    calculation_timestamp := 0, observer_id := 1 }

end RFTBot

namespace RFTBot

/-- C1. For every parameter record accepted by `RFTEngine.render_frame`, the
returned `omega_result` is exactly `(omega_obs * chi_liam) / (delta_phi *
upsilon)`, and the returned `rft_equation_components` record the same
numerator `omega_obs * chi_liam` and denominator `delta_phi * upsilon`. -/
theorem render_frame_core_equation (env : MathEnv) (t : ℚ) (s : EngineState)
    (d : Draws) (p : RFTParams) (cd : ChallengeData) (f : RenderedFrame)
    (h : renderFrame env t s d p cd = .ok f) :
    f.omega_result = (p.omega_obs * p.chi_liam) / (p.delta_phi * p.upsilon) ∧
    f.rft_equation_components.numerator = p.omega_obs * p.chi_liam ∧
    f.rft_equation_components.denominator = p.delta_phi * p.upsilon := by
  by_cases hden : p.delta_phi * p.upsilon = 0
  · simp [renderFrame, omegaResultDivision, hden] at h
  · by_cases hbase : s.current.omega_obs_base = 0 ∨ s.current.chi_liam_base = 0 ∨
        s.current.delta_phi_base = 0 ∨ s.current.upsilon_base = 0
    · simp [renderFrame, omegaResultDivision, hden, hbase] at h
    · simp [renderFrame, omegaResultDivision, hden, hbase] at h
      subst h
      simp

/-- The frame rendered for the concrete inputs `p1`, used as a witness. -/
def frame1 : RenderedFrame :=
  match renderFrame env0 0 s0 d0 p1 cd0 with
  | .ok f => f
  | .error _ =>
      { omega_result := 0, stability := 0, confidence := 0, tau_eff := 0,
        frame_characteristics :=
          { coherence_level := 0, temporal_alignment := 0, phase_coherence := 0,
            observer_resonance := 0, complexity_resolution := 0,
            frame_type := "", rendering_quality := "" },
        observer_alignment := 0, rendering_timestamp := 0,
        rft_equation_components := { numerator := 0, denominator := 0, equation_balance := 0 } }

/-- The nonzero denominator of `p1`. -/
theorem p1_den_ne : p1.delta_phi * p1.upsilon ≠ 0 := by norm_num [p1]

/-- The current base parameters of the fresh state `s0` are all nonzero. -/
theorem s0_bases_ne : ¬(s0.current.omega_obs_base = 0 ∨ s0.current.chi_liam_base = 0 ∨
    s0.current.delta_phi_base = 0 ∨ s0.current.upsilon_base = 0) := by
  norm_num [s0, baseParameters]

/-- `renderFrame` succeeds on the concrete inputs, returning `frame1`. -/
theorem frame1_spec : renderFrame env0 0 s0 d0 p1 cd0 = .ok frame1 := by
  unfold frame1
  simp only [renderFrame, omegaResultDivision, if_neg p1_den_ne, if_neg s0_bases_ne]

/-- Witness for C1: the theorem applied at concrete inputs. -/
theorem render_frame_core_equation_witness :
    frame1.omega_result = (p1.omega_obs * p1.chi_liam) / (p1.delta_phi * p1.upsilon) ∧
    frame1.rft_equation_components.numerator = p1.omega_obs * p1.chi_liam ∧
    frame1.rft_equation_components.denominator = p1.delta_phi * p1.upsilon :=
  render_frame_core_equation env0 0 s0 d0 p1 cd0 frame1 frame1_spec

/-- C9. `render_frame` divides by `delta_phi * upsilon` with no zero guard:
with a zero denominator the call raises ZeroDivisionError, while the core
division succeeds whenever the denominator is nonzero; in the same code,
`_calculate_effective_timing` and the `equation_balance` component both
substitute 0.001 for a zero denominator. -/
theorem render_frame_no_zero_guard (env : MathEnv) (t : ℚ) (s : EngineState)
    (d : Draws) (p q : RFTParams) (cd : ChallengeData)
    (hp : p.delta_phi * p.upsilon = 0) (hq : q.delta_phi * q.upsilon ≠ 0) :
    renderFrame env t s d p cd = .error .zeroDivisionError ∧
    omegaResultDivision q = .ok ((q.omega_obs * q.chi_liam) / (q.delta_phi * q.upsilon)) ∧
    calculateEffectiveTiming s p.omega_obs p.chi_liam p.delta_phi p.upsilon =
      (p.omega_obs * p.chi_liam) / 0.001 * min (p.chi_liam / s.current.chi_liam_base) 2.0 *
        baseParameters.tau_eff_base ∧
    equationBalance p = (p.omega_obs * p.chi_liam) / 0.001 := by
  refine ⟨?_, ?_, ?_, ?_⟩
  · simp [renderFrame, omegaResultDivision, hp]
  · simp [omegaResultDivision, hq]
  · simp [calculateEffectiveTiming, hp]
  · unfold equationBalance
    rw [hp]
    norm_num

/-- Witness for C9: the theorem applied at concrete inputs (`pZero` with zero
denominator, `p1` with nonzero denominator). -/
theorem render_frame_no_zero_guard_witness :
    renderFrame env0 0 s0 d0 pZero cd0 = .error .zeroDivisionError ∧
    omegaResultDivision p1 = .ok ((p1.omega_obs * p1.chi_liam) / (p1.delta_phi * p1.upsilon)) ∧
    calculateEffectiveTiming s0 pZero.omega_obs pZero.chi_liam pZero.delta_phi pZero.upsilon =
      (pZero.omega_obs * pZero.chi_liam) / 0.001 *
        min (pZero.chi_liam / s0.current.chi_liam_base) 2.0 * baseParameters.tau_eff_base ∧
    equationBalance pZero = (pZero.omega_obs * pZero.chi_liam) / 0.001 :=
  render_frame_no_zero_guard env0 0 s0 d0 pZero p1 cd0 (by norm_num [pZero]) p1_den_ne

end RFTBot

namespace RFTBot

/-- One full evaluation of a challenge through the arithmetic pipeline:
`calculate_rft_parameters` followed by `render_frame` on the resulting
parameters (steps 3 and 4 of `handle_challenge`, src/main.py:523-526),
returning the parameter record together with the Ω output. -/
def FullRun (env : MathEnv) (t : ℚ) (s : EngineState) (cd : ChallengeData)
    (d : Draws) : Except PyError (RFTParams × ℚ) :=
  let pr := calculateRFTParameters env t s d cd
  (renderFrame env t pr.2 d pr.1 cd).map fun f => (pr.1, f.omega_result)

/-- An outcome reachable from a fixed engine state at a fixed time: some
choice of the `random.uniform` draws (each within its documented range)
produces it. -/
def PossibleRun (env : MathEnv) (t : ℚ) (s : EngineState) (cd : ChallengeData)
    (out : Except PyError (RFTParams × ℚ)) : Prop :=
  ∃ d, ValidDraws d ∧ FullRun env t s cd d = out

/-- The determinism property asserted by the claim: any two runs from the
same engine state at the same time agree on all outputs. -/
def RunDeterministic (env : MathEnv) (t : ℚ) (s : EngineState)
    (cd : ChallengeData) : Prop :=
  ∀ o₁ o₂, PossibleRun env t s cd o₁ → PossibleRun env t s cd o₂ → o₁ = o₂

/-- A concrete observer already known to the engine. -/
def obC2 : ObserverState :=
  { base_coherence := 1, interaction_count := 0, challenge_history := [],
    synchronization_level := 1 }

/-- A concrete engine state containing observer 1. -/
def sC2 : EngineState :=
  { current := baseParameters, observer_states := [(1, obC2)], calculation_history := [] }

/-- Draws with temporal variance 0. -/
def dA : Draws := { base_coherence := 1, variance := 0, type_variance := 0 }

/-- Draws with temporal variance 1/10: also inside the `random.uniform(-0.1,
0.1)` range. -/
def dB : Draws := { base_coherence := 1, variance := 1/10, type_variance := 0 }

/-- The parameter record produced by the run with draws `dA`. -/
def pA : RFTParams :=
  { omega_obs := 81709/50000, chi_liam := 1359/500, delta_phi := 942477/250000,
    upsilon := 71407/50000, tau_eff := 183238500/222110413,
    calculation_timestamp := 0, observer_id := 1 }

/-- The parameter record produced by the run with draws `dB`. -/
def pB : RFTParams :=
  { omega_obs := 81709/50000, chi_liam := 1359/500, delta_phi := 942477/250000,
    upsilon := 785477/500000, tau_eff := 1832385000/2443214543,
    calculation_timestamp := 0, observer_id := 1 }

end RFTBot
namespace RFTBot

def obA1 : ObserverState :=
  { base_coherence := 1, interaction_count := 1, challenge_history := [],
    synchronization_level := 101/100 }

def sA1 : EngineState :=
  { current := baseParameters, observer_states := [(1, obA1)], calculation_history := [] }

theorem lkC2 : sC2.observer_states.lookup 1 = some obC2 := rfl

set_option maxHeartbeats 800000 in
theorem obsState_evalA :
    calculateObserverState env0 0 sC2 dA.base_coherence cd0.user_id cd0 = (81709/50000, sA1) := by
  simp only [calculateObserverState, cd0, dA, lkC2, env0, updateObserver]
  norm_num [sC2, obC2, obA1, sA1, baseParameters, min_def, updateObserver]

set_option maxHeartbeats 800000 in
theorem obsState_evalB :
    calculateObserverState env0 0 sC2 dB.base_coherence cd0.user_id cd0 = (81709/50000, sA1) := by
  simp only [calculateObserverState, cd0, dB, lkC2, env0, updateObserver]
  norm_num [sC2, obC2, obA1, sA1, baseParameters, min_def, updateObserver]

theorem typeModifier_general : typeModifier "general" = 1.0 := by
  unfold typeModifier
  rw [if_neg (by decide), if_neg (by decide), if_neg (by decide), if_neg (by decide),
    if_neg (by decide), if_neg (by decide), if_pos rfl]

set_option maxHeartbeats 800000 in
theorem chi_eval : calculateCoherenceCoefficient sA1 cd0.type cd0.complexity = 1359/500 := by
  simp only [calculateCoherenceCoefficient, cd0, typeModifier_general]
  norm_num [sA1, baseParameters, COHERENCE_THRESHOLD]

set_option maxHeartbeats 800000 in
theorem dp_eval : calculatePhaseDifferential env0 0 sA1 cd0.semantic_density cd0 = 942477/250000 := by
  norm_num [calculatePhaseDifferential, env0, sA1, cd0, baseParameters, pymod, abs_of_pos]

theorem lkA1 : sA1.observer_states.lookup 1 = some obA1 := rfl

set_option maxHeartbeats 800000 in
theorem ups_evalA : calculateTemporalScaling sA1 dA.variance cd0.user_id cd0 = 71407/50000 := by
  simp only [calculateTemporalScaling, cd0, dA, lkA1]
  norm_num [sA1, obA1, baseParameters, TEMPORAL_VARIANCE_MAX, min_def, max_def]

set_option maxHeartbeats 800000 in
theorem ups_evalB : calculateTemporalScaling sA1 dB.variance cd0.user_id cd0 = 785477/500000 := by
  simp only [calculateTemporalScaling, cd0, dB, lkA1]
  norm_num [sA1, obA1, baseParameters, TEMPORAL_VARIANCE_MAX, min_def, max_def]

set_option maxHeartbeats 800000 in
theorem tau_evalA :
    calculateEffectiveTiming sA1 (81709/50000) (1359/500) (942477/250000) (71407/50000)
      = 183238500/222110413 := by
  norm_num [calculateEffectiveTiming, sA1, baseParameters, min_def]

set_option maxHeartbeats 800000 in
theorem tau_evalB :
    calculateEffectiveTiming sA1 (81709/50000) (1359/500) (942477/250000) (785477/500000)
      = 1832385000/2443214543 := by
  norm_num [calculateEffectiveTiming, sA1, baseParameters, min_def]

end RFTBot

namespace RFTBot

def sA2 : EngineState :=
  { current := baseParameters, observer_states := [(1, obA1)], calculation_history := [pA] }

def sB2 : EngineState :=
  { current := baseParameters, observer_states := [(1, obA1)], calculation_history := [pB] }

set_option maxHeartbeats 800000 in
theorem params_evalA : calculateRFTParameters env0 0 sC2 dA cd0 = (pA, sA2) := by
  simp only [calculateRFTParameters, obsState_evalA, chi_eval, dp_eval, ups_evalA, tau_evalA]
  norm_num [pA, sA1, sA2, cd0]

set_option maxHeartbeats 800000 in
theorem params_evalB : calculateRFTParameters env0 0 sC2 dB cd0 = (pB, sB2) := by
  simp only [calculateRFTParameters, obsState_evalB, chi_eval, dp_eval, ups_evalB, tau_evalB]
  norm_num [pB, sA1, sB2, cd0]

def fallbackFrame : RenderedFrame :=
  { omega_result := 0, stability := 0, confidence := 0, tau_eff := 0,
    frame_characteristics :=
      { coherence_level := 0, temporal_alignment := 0, phase_coherence := 0,
        observer_resonance := 0, complexity_resolution := 0,
        frame_type := "", rendering_quality := "" },
    observer_alignment := 0, rendering_timestamp := 0,
    rft_equation_components := { numerator := 0, denominator := 0, equation_balance := 0 } }

def frameA : RenderedFrame :=
  match renderFrame env0 0 sA2 dA pA cd0 with
  | .ok f => f
  | .error _ => fallbackFrame

def frameB : RenderedFrame :=
  match renderFrame env0 0 sB2 dB pB cd0 with
  | .ok f => f
  | .error _ => fallbackFrame

theorem pA_den_ne : pA.delta_phi * pA.upsilon ≠ 0 := by norm_num [pA]

theorem pB_den_ne : pB.delta_phi * pB.upsilon ≠ 0 := by norm_num [pB]

theorem sA2_bases_ne : ¬(sA2.current.omega_obs_base = 0 ∨ sA2.current.chi_liam_base = 0 ∨
    sA2.current.delta_phi_base = 0 ∨ sA2.current.upsilon_base = 0) := by
  norm_num [sA2, baseParameters]

theorem sB2_bases_ne : ¬(sB2.current.omega_obs_base = 0 ∨ sB2.current.chi_liam_base = 0 ∨
    sB2.current.delta_phi_base = 0 ∨ sB2.current.upsilon_base = 0) := by
  norm_num [sB2, baseParameters]

theorem frameA_spec : renderFrame env0 0 sA2 dA pA cd0 = .ok frameA := by
  unfold frameA
  simp only [renderFrame, omegaResultDivision, if_neg pA_den_ne, if_neg sA2_bases_ne]

theorem frameB_spec : renderFrame env0 0 sB2 dB pB cd0 = .ok frameB := by
  unfold frameB
  simp only [renderFrame, omegaResultDivision, if_neg pB_den_ne, if_neg sB2_bases_ne]

set_option maxHeartbeats 800000 in
theorem frameA_omega : frameA.omega_result = 183238500/222110413 := by
  unfold frameA
  simp only [renderFrame, omegaResultDivision, if_neg pA_den_ne, if_neg sA2_bases_ne]
  norm_num [pA]

set_option maxHeartbeats 800000 in
theorem frameB_omega : frameB.omega_result = 1832385000/2443214543 := by
  unfold frameB
  simp only [renderFrame, omegaResultDivision, if_neg pB_den_ne, if_neg sB2_bases_ne]
  norm_num [pB]

theorem fullRun_dA : FullRun env0 0 sC2 cd0 dA = .ok (pA, 183238500/222110413) := by
  unfold FullRun
  rw [params_evalA]
  simp only [frameA_spec, Except.map, frameA_omega]

theorem fullRun_dB : FullRun env0 0 sC2 cd0 dB = .ok (pB, 1832385000/2443214543) := by
  unfold FullRun
  rw [params_evalB]
  simp only [frameB_spec, Except.map, frameB_omega]

end RFTBot

namespace RFTBot

theorem dA_valid : ValidDraws dA := by norm_num [ValidDraws, dA]

theorem dB_valid : ValidDraws dB := by norm_num [ValidDraws, dB]

/-- C2 counterexample: from one and the same engine state at one and the same
time, two runs of the pipeline (both with draws inside the documented
`random.uniform` ranges) produce different upsilon values and different Ω. -/
theorem run_not_deterministic : ¬ RunDeterministic env0 0 sC2 cd0 := by
  intro h
  have h1 := h (FullRun env0 0 sC2 cd0 dA) (FullRun env0 0 sC2 cd0 dB)
    ⟨dA, dA_valid, rfl⟩ ⟨dB, dB_valid, rfl⟩
  rw [fullRun_dA, fullRun_dB] at h1
  simp only [Except.ok.injEq, Prod.mk.injEq] at h1
  have h2 : pA.upsilon = pB.upsilon := by rw [h1.1]
  norm_num [pA, pB] at h2

/-- C2 amended: the pipeline is deterministic once the pseudo-random draws are
fixed: two runs from the same engine state at the same time with the same
draws agree on every parameter field and on the Ω output. -/
theorem run_deterministic_given_draws (env : MathEnv) (t : ℚ) (s : EngineState)
    (cd : ChallengeData) (d₁ d₂ : Draws) (hd : d₁ = d₂)
    (p₁ p₂ : RFTParams) (ω₁ ω₂ : ℚ)
    (r₁ : FullRun env t s cd d₁ = .ok (p₁, ω₁))
    (r₂ : FullRun env t s cd d₂ = .ok (p₂, ω₂)) :
    p₁.omega_obs = p₂.omega_obs ∧ p₁.chi_liam = p₂.chi_liam ∧
    p₁.delta_phi = p₂.delta_phi ∧ p₁.upsilon = p₂.upsilon ∧
    p₁.tau_eff = p₂.tau_eff ∧ ω₁ = ω₂ := by
  subst hd
  rw [r₁] at r₂
  simp only [Except.ok.injEq, Prod.mk.injEq] at r₂
  obtain ⟨hp, hw⟩ := r₂
  subst hp
  subst hw
  exact ⟨rfl, rfl, rfl, rfl, rfl, rfl⟩

/-- Witness for the amended C2 theorem at concrete inputs. -/
theorem run_deterministic_given_draws_witness :
    pA.omega_obs = pA.omega_obs ∧ pA.chi_liam = pA.chi_liam ∧
    pA.delta_phi = pA.delta_phi ∧ pA.upsilon = pA.upsilon ∧
    pA.tau_eff = pA.tau_eff ∧ (183238500/222110413 : ℚ) = 183238500/222110413 :=
  run_deterministic_given_draws env0 0 sC2 cd0 dA dA rfl pA pA
    (183238500/222110413) (183238500/222110413) fullRun_dA fullRun_dA

end RFTBot
namespace RFTBot

/-- The common shape of the JSON log writers: load the list, append one
entry, keep only the last `cap` entries (`log_data = log_data[-cap:]`), save. -/
def appendCapped {α : Type} (cap : ℕ) (log : List α) (entry : α) : List α :=
  let log1 := log ++ [entry]
  if log1.length > cap then log1.drop (log1.length - cap) else log1

/-- `ObserverLogger._save_observer_log` (src/observer_logger.py:515-542):
append the entry, keep only the last 1000 entries. -/
def saveObserverLog {α : Type} (log : List α) (entry : α) : List α :=
  appendCapped 1000 log entry

/-- `ResponseGenerator._log_challenge_validation`
(src/response_generator.py:535-577): append the entry, keep only the last 500
entries. -/
def logChallengeValidation {α : Type} (log : List α) (entry : α) : List α :=
  appendCapped 500 log entry

/-- The import list of src/challenge_processor.py (lines 6-11): re, math,
logging, typing, datetime, numpy. Neither `os` nor `json` is imported. -/
def challengeProcessorImports : List String :=
  ["re", "math", "logging", "typing", "datetime", "numpy"]

/-- `ChallengeProcessor._log_theft_flag` (src/challenge_processor.py:528-562).
The body's first statement evaluates `os.path.exists(log_file)`, but `os` is
not bound in the module (see `challengeProcessorImports`), so a NameError is
raised, the bare `except Exception` logs it, and the log file is never
touched: the stored log is returned unchanged. The appending branch is
transcribed for fidelity but is unreachable. -/
def logTheftFlag {α : Type} (log : List α) (entry : α) : List α :=
  if "os" ∈ challengeProcessorImports then appendCapped 500 log entry else log

/-- Below capacity, `appendCapped` is a plain append. -/
theorem appendCapped_of_le {α : Type} (cap : ℕ) (l : List α) (e : α)
    (h : l.length + 1 ≤ cap) : appendCapped cap l e = l ++ [e] := by
  unfold appendCapped
  simp only [List.length_append, List.length_singleton]
  rw [if_neg (by omega)]

/-- A write sequence that stays within capacity retains every entry in order. -/
theorem foldl_appendCapped {α : Type} (cap : ℕ) :
    ∀ (es l : List α), l.length + es.length ≤ cap →
      es.foldl (appendCapped cap) l = l ++ es := by
  intro es
  induction es with
  | nil => intro l _; simp
  | cons e es ih =>
      intro l h
      have h1 : l.length + 1 ≤ cap := by simp at h; omega
      rw [List.foldl_cons, appendCapped_of_le cap l e h1, ih (l ++ [e]) (by simp at h ⊢; omega)]
      simp

/-- C3 counterexample: a theft-flag write appends nothing: after one call on
an empty log the written entry is absent (the claim asserts every call to the
writer appends its entry). -/
theorem log_theft_flag_writes_nothing :
    logTheftFlag ([] : List ℕ) 0 = [] ∧ (0 : ℕ) ∉ logTheftFlag ([] : List ℕ) 0 := by
  decide

/-- C3 amended: `_save_observer_log` and `_log_challenge_validation` append
one entry per call but keep only the most recent 1000 (resp. 500) entries, so
all n written entries are retained only while n stays within the cap, and a
write to a full observer log drops the oldest entry; `_log_theft_flag` never
writes at all (missing os/json imports, NameError swallowed). -/
theorem log_writers_amended {α : Type} (l₁ es₁ l₂ es₂ l₃ l₄ : List α) (e₃ e₄ e₅ : α)
    (h₁ : l₁.length + es₁.length ≤ 1000) (h₂ : l₂.length + es₂.length ≤ 500)
    (h₄ : l₄.length = 1000) :
    es₁.foldl saveObserverLog l₁ = l₁ ++ es₁ ∧
    es₂.foldl logChallengeValidation l₂ = l₂ ++ es₂ ∧
    logTheftFlag l₃ e₃ = l₃ ∧
    saveObserverLog l₄ e₄ = l₄.drop 1 ++ [e₄] ∧
    (saveObserverLog l₄ e₅).length = 1000 := by
  refine ⟨foldl_appendCapped 1000 es₁ l₁ h₁, foldl_appendCapped 500 es₂ l₂ h₂, ?_, ?_, ?_⟩
  · simp [logTheftFlag, challengeProcessorImports]
  · unfold saveObserverLog appendCapped
    simp only [List.length_append, List.length_singleton, h₄]
    rw [if_pos (by omega)]
    rw [List.drop_append_of_le_length (by omega)]
  · unfold saveObserverLog appendCapped
    simp only [List.length_append, List.length_singleton, h₄]
    rw [if_pos (by omega)]
    simp [h₄]

/-- Witness for the amended C3 theorem at concrete inputs. -/
theorem log_writers_amended_witness :
    ([6, 7] : List ℕ).foldl saveObserverLog [5] = [5] ++ [6, 7] ∧
    ([1] : List ℕ).foldl logChallengeValidation [] = [] ++ [1] ∧
    logTheftFlag ([9] : List ℕ) 3 = [9] ∧
    saveObserverLog (List.range 1000) 3 = (List.range 1000).drop 1 ++ [3] ∧
    (saveObserverLog (List.range 1000) 4).length = 1000 :=
  log_writers_amended [5] [6, 7] [] [1] [9] (List.range 1000) 3 3 4
    (by simp) (by simp) (by simp)

end RFTBot
namespace RFTBot

/-- One entry of the `self.frame_templates` dictionary of `ResponseGenerator`
(src/response_generator.py:27-76). -/
structure FrameTemplate where
  intro : List String
  interpretation : List String

/-- The `high_coherence` template (src/response_generator.py:28-39). -/
def tplHigh : FrameTemplate :=
  { intro :=
      ["🌟 **High Coherence Frame Rendered**",
       "✨ **Optimal Observer-Reality Alignment Achieved**",
       "🔮 **Maximum Coherence Frame Manifested**"]
    interpretation :=
      ["The RFT analysis reveals exceptionally high observer-reality coherence",
       "Your challenge manifests optimal synchronization across all parameters",
       "The rendered frame demonstrates maximum theoretical alignment"] }

/-- The `stable_coherence` template (src/response_generator.py:40-51). -/
def tplStable : FrameTemplate :=
  { intro :=
      ["⚡ **Stable Coherence Frame Rendered**",
       "🎯 **Balanced Observer-Reality Interface**",
       "🌊 **Harmonized Frame Manifestation**"]
    interpretation :=
      ["The RFT analysis shows stable observer-reality coherence",
       "Your challenge achieves balanced synchronization parameters",
       "The rendered frame maintains consistent theoretical stability"] }

/-- The `moderate_coherence` template (src/response_generator.py:52-63). -/
def tplModerate : FrameTemplate :=
  { intro :=
      ["⚖️ **Moderate Coherence Frame Rendered**",
       "🔄 **Processing Observer-Reality Variance**",
       "📊 **Standard Frame Manifestation**"]
    interpretation :=
      ["The RFT analysis indicates moderate observer-reality coherence",
       "Your challenge shows balanced but variable synchronization",
       "The rendered frame demonstrates standard theoretical alignment"] }

/-- The `low_coherence` template (src/response_generator.py:64-75). -/
def tplLow : FrameTemplate :=
  { intro :=
      ["🌀 **Low Coherence Frame Rendered**",
       "⚠️ **Observer-Reality Desynchronization Detected**",
       "🔍 **Analytical Frame Processing**"]
    interpretation :=
      ["The RFT analysis reveals challenging observer-reality coherence",
       "Your challenge requires enhanced synchronization protocols",
       "The rendered frame suggests theoretical realignment needed"] }

/-- Lookup in the `self.frame_templates` dictionary
(`if frame_type in self.frame_templates`, src/response_generator.py:203). -/
def frameTemplates (frame_type : String) : Option FrameTemplate :=
  if frame_type = "high_coherence" then some tplHigh
  else if frame_type = "stable_coherence" then some tplStable
  else if frame_type = "moderate_coherence" then some tplModerate
  else if frame_type = "low_coherence" then some tplLow
  else none

/-- The intro selection in `ResponseGenerator._generate_header`
(src/response_generator.py:199-207): `random.choice(template['intro'])` when
the frame type is a template key, otherwise the fixed fallback. The
`random.choice` pick is modeled by an arbitrary index reduced modulo the
list length. -/
def generateHeaderIntro (frame_type : String) (choice : ℕ) : String :=
  match frameTemplates frame_type with
  | some t => t.intro.getD (choice % t.intro.length) ""
  | none => "🔮 **RFT Frame Rendered**"

/-- The header assembled by `_generate_header` (src/response_generator.py:209-215):
intro plus the challenge-type line plus the Ω magnitude line. -/
structure Header where
  intro : String
  challenge_type : String
  omega_result : ℚ

/-- `ResponseGenerator._generate_header` as a structured value. -/
def generateHeader (frame_type challenge_type : String) (omega_result : ℚ)
    (choice : ℕ) : Header :=
  { intro := generateHeaderIntro frame_type choice
    challenge_type := challenge_type
    omega_result := omega_result }

/-- An in-range `getD` with a modulo index picks an element of the list. -/
theorem getD_mod_mem {α : Type} (l : List α) (d : α) (i : ℕ) (h : l ≠ []) :
    l.getD (i % l.length) d ∈ l := by
  have hlen : 0 < l.length := List.length_pos.2 h
  have hm : i % l.length < l.length := Nat.mod_lt _ hlen
  rw [List.getD_eq_getElem l d hm]
  exact List.getElem_mem hm

/-- The header intro is always drawn from the template of the given frame
type. -/
theorem header_intro_mem (ft : String) (t : FrameTemplate) (ct : String)
    (ω : ℚ) (choice : ℕ) (hft : frameTemplates ft = some t) (hne : t.intro ≠ []) :
    (generateHeader ft ct ω choice).intro ∈ t.intro := by
  unfold generateHeader generateHeaderIntro
  rw [hft]
  exact getD_mod_mem _ _ _ hne

theorem frameTemplates_high : frameTemplates "high_coherence" = some tplHigh := by
  unfold frameTemplates
  rw [if_pos rfl]

theorem frameTemplates_stable : frameTemplates "stable_coherence" = some tplStable := by
  unfold frameTemplates
  rw [if_neg (by decide), if_pos rfl]

theorem frameTemplates_moderate : frameTemplates "moderate_coherence" = some tplModerate := by
  unfold frameTemplates
  rw [if_neg (by decide), if_neg (by decide), if_pos rfl]

theorem frameTemplates_low : frameTemplates "low_coherence" = some tplLow := by
  unfold frameTemplates
  rw [if_neg (by decide), if_neg (by decide), if_neg (by decide), if_pos rfl]

end RFTBot

namespace RFTBot

/-- C5. The response is assembled from templates selected by threshold
comparisons of Ω: `_determine_frame_type` returns high_coherence iff Ω > 2.0,
stable_coherence iff 1.0 < Ω ≤ 2.0, moderate_coherence iff 0.5 < Ω ≤ 1.0 and
low_coherence otherwise, and `_generate_header` fills its intro from the
template keyed by exactly that frame type. -/
theorem frame_type_thresholds_and_header (ω : ℚ) (ct : String) (choice : ℕ) :
    (determineFrameType ω = "high_coherence" ↔ ω > 2.0) ∧
    (determineFrameType ω = "stable_coherence" ↔ ω > 1.0 ∧ ω ≤ 2.0) ∧
    (determineFrameType ω = "moderate_coherence" ↔ ω > 0.5 ∧ ω ≤ 1.0) ∧
    (determineFrameType ω = "low_coherence" ↔ ω ≤ 0.5) ∧
    ∃ t, frameTemplates (determineFrameType ω) = some t ∧
      (generateHeader (determineFrameType ω) ct ω choice).intro ∈ t.intro := by
  unfold determineFrameType
  split_ifs with h1 h2 h3
  · exact ⟨iff_of_true rfl h1,
      iff_of_false (by decide) (by rintro ⟨-, hle⟩; linarith),
      iff_of_false (by decide) (by rintro ⟨-, hle⟩; linarith),
      iff_of_false (by decide) (by intro hle; linarith),
      tplHigh, frameTemplates_high,
      header_intro_mem _ tplHigh ct ω choice frameTemplates_high (by decide)⟩
  · exact ⟨iff_of_false (by decide) h1,
      iff_of_true rfl ⟨h2, not_lt.1 h1⟩,
      iff_of_false (by decide) (by rintro ⟨-, hle⟩; linarith),
      iff_of_false (by decide) (by intro hle; linarith),
      tplStable, frameTemplates_stable,
      header_intro_mem _ tplStable ct ω choice frameTemplates_stable (by decide)⟩
  · exact ⟨iff_of_false (by decide) h1,
      iff_of_false (by decide) (by rintro ⟨hgt, -⟩; exact h2 hgt),
      iff_of_true rfl ⟨h3, not_lt.1 h2⟩,
      iff_of_false (by decide) (by intro hle; linarith),
      tplModerate, frameTemplates_moderate,
      header_intro_mem _ tplModerate ct ω choice frameTemplates_moderate (by decide)⟩
  · exact ⟨iff_of_false (by decide) h1,
      iff_of_false (by decide) (by rintro ⟨hgt, -⟩; exact h2 hgt),
      iff_of_false (by decide) (by rintro ⟨hgt, -⟩; exact h3 hgt),
      iff_of_true rfl (not_lt.1 h3),
      tplLow, frameTemplates_low,
      header_intro_mem _ tplLow ct ω choice frameTemplates_low (by decide)⟩

end RFTBot
namespace RFTBot

/-- Observable side effects of the `/challenge` handler on the chat and logs. -/
inductive BotEffect
  | editMessage (text : String)
  | logInteraction (kind : String)
  | setSessionStatus (status : String)
deriving DecidableEq

/-- Outcome of one `handle_challenge` invocation: the effects performed, what
exception (if any) escapes to the caller, and how many times the processing
pipeline ran. -/
structure HandleOutcome where
  effects : List BotEffect
  reraised : Option String
  pipelineRuns : ℕ
deriving DecidableEq

/-- The text before `str(e)` in the `error_response` template of
`handle_challenge` (src/main.py:580-593). -/
def errorResponsePre : String :=
  "\n❌ **RFT Processing Error**\n\nAn error occurred while rendering your challenge frame.\n\n**Error Details:** `"

/-- The text after `str(e)` in the `error_response` template. -/
def errorResponsePost : String :=
  "`\n\n**Troubleshooting:**\n- Ensure your challenge is clearly formulated\n- Try rephrasing with more specific parameters\n- Check if the challenge falls within supported categories\n\nPlease try again with a refined challenge.\n        "

/-- The user-facing error text of `handle_challenge`, with `str(e)`
interpolated into the template. -/
def errorResponseText (e : String) : String :=
  errorResponsePre ++ e ++ errorResponsePost

/-- The try/except of `handle_challenge` (src/main.py:484-612), abstracted
over the single run of the processing pipeline (steps 1 through 8). On
success the processing message is edited to the formatted response, a
challenge_complete interaction is logged and the session is marked completed;
on any exception e the processing message is edited to the error template
containing str(e), a challenge_error interaction is logged and the session is
marked error. Neither branch re-raises, retries, or re-runs the pipeline. -/
def handleChallenge (pipeline : Except String String) : HandleOutcome :=
  match pipeline with
  | .ok formatted =>
      { effects := [.editMessage formatted, .logInteraction "challenge_complete",
                    .setSessionStatus "completed"]
        reraised := none
        pipelineRuns := 1 }
  | .error e =>
      { effects := [.editMessage (errorResponseText e), .logInteraction "challenge_error",
                    .setSessionStatus "error"]
        reraised := none
        pipelineRuns := 1 }

/-- `send_telegram_message` (src/telegram_safe_sender.py:10-20): returns True
when the underlying send succeeds and catches any exception, returning False
without propagating it. -/
def sendTelegramMessage (send : Except String Unit) : Bool :=
  match send with
  | .ok _ => true
  | .error _ => false

/-- C6. Errors are caught generically and rendered as user-facing text with no
recovery or retry: any pipeline exception makes `handle_challenge` edit the
processing message to an error text containing str(e) and log a
challenge_error interaction, re-raising nothing and running the pipeline only
once; `send_telegram_message` returns True on success and False on any
exception from the underlying send. -/
theorem generic_error_handling (e fail : String) :
    handleChallenge (.error e) =
      { effects := [.editMessage (errorResponseText e), .logInteraction "challenge_error",
                    .setSessionStatus "error"],
        reraised := none, pipelineRuns := 1 } ∧
    e.data <:+: (errorResponseText e).data ∧
    (handleChallenge (.error e)).reraised = none ∧
    (handleChallenge (.error e)).pipelineRuns = 1 ∧
    sendTelegramMessage (.ok ()) = true ∧
    sendTelegramMessage (.error fail) = false := by
  refine ⟨rfl, ⟨errorResponsePre.data, errorResponsePost.data, ?_⟩, rfl, rfl, rfl, rfl⟩
  simp [errorResponseText, List.append_assoc]

end RFTBot

namespace RFTBot

/-- Atomic actions relevant to the lock discipline: acquiring/releasing the
mutex (`with self.lock` / `with session_lock`) and mutating a named shared
dictionary. -/
inductive LockAction
  | acquire
  | release
  | mutate (dict : String)
deriving DecidableEq

/-- Scan of an action sequence: every mutation of dictionary `d` must happen
at positive lock depth. -/
def mutationsProtectedAux (d : String) : ℕ → List LockAction → Bool
  | _, [] => true
  | depth, .acquire :: r => mutationsProtectedAux d (depth + 1) r
  | depth, .release :: r => mutationsProtectedAux d (depth - 1) r
  | depth, .mutate d' :: r =>
      (d' != d || decide (0 < depth)) && mutationsProtectedAux d depth r

/-- Every mutation of `d` in `acts` is performed while the lock is held. -/
def mutationsProtected (acts : List LockAction) (d : String) : Bool :=
  mutationsProtectedAux d 0 acts

/-- `ObserverLogger.log_interaction` (src/observer_logger.py:65-104): inside
`with self.lock` it appends to observer_interactions, updates
observer_metadata and performance_metrics. -/
def logInteractionActions : List LockAction :=
  [.acquire, .mutate "observer_interactions", .mutate "observer_metadata",
   .mutate "performance_metrics", .release]

/-- `ObserverLogger.log_synchronization_event` (src/observer_logger.py:291-315):
inside `with self.lock` it appends to sync_events and updates
observer_metadata. -/
def logSyncEventActions : List LockAction :=
  [.acquire, .mutate "sync_events", .mutate "observer_metadata", .release]

/-- `ObserverLogger.log_coherence_measurement` (src/observer_logger.py:317-332):
inside `with self.lock` it appends to coherence_timeline. -/
def logCoherenceActions : List LockAction :=
  [.acquire, .mutate "coherence_timeline", .release]

/-- `ObserverLogger.get_sync_status` (src/observer_logger.py:224-251): it
writes `self.sync_status_cache[cache_key] = ...` with no `with self.lock`
anywhere in the method. -/
def getSyncStatusActions : List LockAction :=
  [.mutate "sync_status_cache"]

/-- `ObserverLogger.cleanup_old_data` (src/observer_logger.py:425-464): inside
`with self.lock` it rewrites observer_interactions and observer_metadata,
rebuilds sync_events and coherence_timeline and clears sync_status_cache. -/
def cleanupOldDataActions : List LockAction :=
  [.acquire, .mutate "observer_interactions", .mutate "observer_metadata",
   .mutate "sync_events", .mutate "coherence_timeline", .mutate "sync_status_cache",
   .release]

/-- `ObserverLogger.log_observer_state` (src/observer_logger.py:466-513):
inside `with self.lock` it updates observer_last_challenge. -/
def logObserverStateActions : List LockAction :=
  [.acquire, .mutate "observer_last_challenge", .release]

/-- The `ObserverLogger` methods that touch its shared dictionaries
(transcribed from src/observer_logger.py). -/
def observerLoggerMethods : List (String × List LockAction) :=
  [("log_interaction", logInteractionActions),
   ("log_synchronization_event", logSyncEventActions),
   ("log_coherence_measurement", logCoherenceActions),
   ("get_sync_status", getSyncStatusActions),
   ("cleanup_old_data", cleanupOldDataActions),
   ("log_observer_state", logObserverStateActions)]

/-- The shared `ObserverLogger` dictionaries named by the claim. -/
def observerSharedDicts : List String :=
  ["observer_interactions", "observer_metadata", "sync_status_cache",
   "sync_events", "coherence_timeline"]

/-- The sites in src/main.py mutating `active_sessions`: session creation
(lines 487-494), completion update (572-575), error update (609-612) and the
cleanup loop (648-658); each wraps the mutation in `with session_lock`. -/
def mainSessionSites : List (String × List LockAction) :=
  [("handle_challenge_create", [.acquire, .mutate "active_sessions", .release]),
   ("handle_challenge_complete", [.acquire, .mutate "active_sessions", .release]),
   ("handle_challenge_error", [.acquire, .mutate "active_sessions", .release]),
   ("cleanup_sessions", [.acquire, .mutate "active_sessions", .release])]

/-- The lock discipline asserted by the claim: every mutation of
active_sessions holds session_lock and every mutation of the shared
ObserverLogger dictionaries holds self.lock. -/
def LockDisciplineClaim : Prop :=
  (∀ m ∈ mainSessionSites, mutationsProtected m.2 "active_sessions" = true) ∧
  (∀ m ∈ observerLoggerMethods, ∀ dict ∈ observerSharedDicts,
    mutationsProtected m.2 dict = true)

/-- C7 counterexample: the discipline fails, because `get_sync_status`
mutates `sync_status_cache` without holding the lock. -/
theorem lock_discipline_counterexample : ¬ LockDisciplineClaim := by
  unfold LockDisciplineClaim
  decide

/-- C7 amended: every mutation of `active_sessions` in main.py holds
`session_lock`, and every mutation of the shared ObserverLogger dictionaries
holds `self.lock`, except that `get_sync_status` writes `sync_status_cache`
without the lock. -/
theorem lock_discipline_amended :
    (∀ m ∈ mainSessionSites, mutationsProtected m.2 "active_sessions" = true) ∧
    (∀ m ∈ observerLoggerMethods, m.1 ≠ "get_sync_status" →
      ∀ dict ∈ observerSharedDicts, mutationsProtected m.2 dict = true) ∧
    mutationsProtected getSyncStatusActions "sync_status_cache" = false := by
  refine ⟨by decide, by decide, by decide⟩

/-- Witness for the amended C7 theorem at concrete method and dictionary. -/
theorem lock_discipline_amended_witness :
    mutationsProtected logInteractionActions "observer_interactions" = true ∧
    mutationsProtected getSyncStatusActions "sync_status_cache" = false :=
  ⟨lock_discipline_amended.2.1 ("log_interaction", logInteractionActions)
      (by decide) (by decide) "observer_interactions" (by decide),
    lock_discipline_amended.2.2⟩

end RFTBot
namespace RFTBot

/-- The `interference_result` dictionary of
`ChallengeProcessor._detect_signal_interference`
(src/challenge_processor.py:408-412). -/
structure InterferenceResult where
  detected : Bool
  spike_level : ℚ
  warning_message : Option String
deriving DecidableEq

/-- An entry of logs/observer_log.json as read by the interference detector
(the fields it touches: user_id and delta_phi). -/
structure ObserverLogRecord where
  user_id : ℤ
  delta_phi : ℚ
deriving DecidableEq

/-- Python `l[-n:]`. -/
def lastN {α : Type} (n : ℕ) (l : List α) : List α :=
  l.drop (l.length - n)

/-- `ChallengeProcessor._detect_signal_interference`
(src/challenge_processor.py:402-443). The try block first evaluates
`os.path.exists(log_file)`; `os` is not bound in the module (see
`challengeProcessorImports`), so a NameError is raised, the bare
`except Exception` logs it, and the default result is returned. The spike
logic guarded by the import check is transcribed for fidelity but is
unreachable; `fileExists` and `logData` stand for the file system state it
would read. -/
def detectSignalInterference (fileExists : Bool) (logData : List ObserverLogRecord)
    (text : String) (user_id : ℤ) (semantic_density : ℚ) : InterferenceResult :=
  let result0 : InterferenceResult :=
    { detected := false, spike_level := 0.0, warning_message := none }
  if "os" ∈ challengeProcessorImports then
    if fileExists then
      let user_entries := logData.filter (fun r => r.user_id == user_id)
      if 3 ≤ user_entries.length then
        let delta_phi_values := (lastN 10 user_entries).map (fun r => r.delta_phi)
        let mean_delta_phi := delta_phi_values.sum / delta_phi_values.length
        let current_spike := semantic_density * 3.14159
        if current_spike > 3 * mean_delta_phi ∧ mean_delta_phi > 0 then
          { detected := true, spike_level := current_spike / mean_delta_phi,
            warning_message :=
              some "⚠️ Simulation interference detected in your challenge. Render delay exceeds norm." }
        else result0
      else result0
    else result0
  else result0

/-- C8. For every challenge text, user id and semantic density (and any state
of the log file), `_detect_signal_interference` returns the unchanged default
`detected = False, spike_level = 0.0, warning_message = None`: the module
never imports os, so the `os.path.exists` call raises NameError, the generic
except absorbs it, and no interference warning is ever produced. -/
theorem signal_interference_never_fires (fileExists : Bool)
    (logData : List ObserverLogRecord) (text : String) (uid : ℤ) (sd : ℚ) :
    detectSignalInterference fileExists logData text uid sd =
      { detected := false, spike_level := 0.0, warning_message := none } := by
  unfold detectSignalInterference
  rw [if_neg (by decide)]

end RFTBot
namespace RFTBot

/-- Python `str.split()` with no argument: split on whitespace runs, dropping
empty pieces. -/
def pyWords (s : String) : List String :=
  (s.split Char.isWhitespace).filter (fun w => !w.isEmpty)

/-- Non-overlapping occurrence counting, scanning left to right, as Python
`str.count` does. -/
def countOccAux (pat : List Char) : List Char → ℕ
  | [] => 0
  | c :: rest =>
      if pat.isPrefixOf (c :: rest) then 1 + countOccAux pat (rest.drop (pat.length - 1))
      else countOccAux pat rest
termination_by l => l.length
decreasing_by
  · simp only [List.length_drop, List.length_cons]
    omega
  · simp only [List.length_cons]
    omega

/-- Python `text.count(pat)` (non-overlapping; an empty pattern counts
len + 1 times). -/
def strCount (text pat : String) : ℕ :=
  if pat.data = [] then text.length + 1 else countOccAux pat.data text.data

/-- A pattern is an infix of a list: it is a prefix of some suffix. -/
def listInfix (pat : List Char) : List Char → Bool
  | [] => pat.isEmpty
  | c :: rest => pat.isPrefixOf (c :: rest) || listInfix pat rest

/-- Python `pat in text` (substring containment). -/
def strContains (text pat : String) : Bool :=
  listInfix pat.data text.data

/-- The `high` complexity indicators (src/challenge_processor.py:40). -/
def highComplexityIndicators : List String :=
  ["multi-dimensional", "paradox", "infinite", "recursive", "non-linear", "chaotic"]

/-- The `medium` complexity indicators (src/challenge_processor.py:41). -/
def mediumComplexityIndicators : List String :=
  ["relationship", "interaction", "correlation", "influence", "connection", "dynamic"]

/-- The `low` complexity indicators (src/challenge_processor.py:42). -/
def lowComplexityIndicators : List String :=
  ["basic", "simple", "direct", "linear", "straightforward", "elementary"]

/-- `ChallengeProcessor._calculate_complexity`
(src/challenge_processor.py:175-222). The per-indicator loop adds 0.3, 0.2 or
-0.1 for each indicator present, which sums to the weighted counts below.
`techMatches` is the total number of matches of the four technical regex
patterns (`re.findall` is not embedded; any text yields some such count, and
each match contributes 0.05). When the text has no nonempty sentence,
`np.mean([])` is NaN, and the final CPython `max(0.0, min(NaN, 1.0))`
evaluates to 0.0, which the first branch returns directly. -/
def calculateComplexity (text : String) (techMatches : ℕ) : ℚ :=
  let indicator_score : ℚ :=
    0.3 * ((highComplexityIndicators.filter (fun w => strContains text w)).length : ℚ)
    + 0.2 * ((mediumComplexityIndicators.filter (fun w => strContains text w)).length : ℚ)
    - 0.1 * ((lowComplexityIndicators.filter (fun w => strContains text w)).length : ℚ)
  let sentences := text.splitOn "."
  let sentence_word_counts :=
    (sentences.filter (fun s => !(pyWords s).isEmpty)).map (fun s => (pyWords s).length)
  if sentence_word_counts.isEmpty then 0.0
  else
    let avg_sentence_length : ℚ :=
      ((sentence_word_counts.map (fun n => (n : ℚ))).sum) / (sentence_word_counts.length : ℚ)
    let length_complexity := min (avg_sentence_length / 20) 0.5
    let question_count := strCount text "?"
    let nested_questions := strCount text "how" + strCount text "why" + strCount text "what if"
    let question_complexity := min (((question_count + nested_questions : ℕ) : ℚ) * 0.1) 0.3
    let technical_score : ℚ := (techMatches : ℚ) * 0.05
    let score := indicator_score + length_complexity + question_complexity
      + min technical_score 0.3
    max 0.0 (min score 1.0)

/-- The stop-word set of `_calculate_semantic_density`
(src/challenge_processor.py:234-239). -/
def stopWords : List String :=
  ["the", "a", "an", "and", "or", "but", "in", "on", "at", "to",
   "for", "of", "with", "by", "is", "are", "was", "were", "be",
   "been", "being", "have", "has", "had", "do", "does", "did",
   "will", "would", "could", "should", "may", "might", "can",
   "this", "that", "these", "those", "i", "you", "he", "she",
   "it", "we", "they", "me", "him", "her", "us", "them"]

/-- The `self.challenge_keywords` table (src/challenge_processor.py:25-36). -/
def challengeKeywords : List (String × List String) :=
  [("cognitive", ["consciousness", "mind", "thinking", "cognitive", "awareness", "perception", "brain"]),
   ("theoretical", ["theory", "hypothesis", "model", "framework", "principle", "law", "equation"]),
   ("quantum", ["quantum", "entanglement", "superposition", "wave", "particle", "measurement", "collapse"]),
   ("temporal", ["time", "temporal", "causality", "chronology", "sequence", "duration", "timing"]),
   ("perceptual", ["perceive", "observe", "see", "hear", "sense", "experience", "feel", "sensation"]),
   ("consciousness", ["conscious", "unconscious", "awareness", "subjective", "experience", "qualia"]),
   ("observer", ["observer", "observation", "observe", "witness", "viewpoint", "perspective"]),
   ("reality", ["reality", "existence", "being", "ontology", "actual", "real", "manifest"]),
   ("synchronization", ["sync", "synchronize", "align", "coordinate", "harmony", "resonance"]),
   ("ai_alignment", ["artificial", "intelligence", "ai", "machine", "algorithm", "neural", "learning"])]

/-- `ChallengeProcessor._calculate_semantic_density`
(src/challenge_processor.py:224-257): unique meaningful word ratio plus a
capped scientific-vocabulary bonus, clamped to the unit interval; 0.0 for a
text with no words. -/
def calculateSemanticDensity (text : String) : ℚ :=
  let words := pyWords text
  let word_count := words.length
  if word_count = 0 then 0.0
  else
    let meaningful_words :=
      words.filter (fun w => !stopWords.contains w && decide (w.length > 2))
    let unique_meaningful_words := meaningful_words.dedup
    let basic_density : ℚ := (unique_meaningful_words.length : ℚ) / (word_count : ℚ)
    let scientific_word_count : ℕ :=
      (challengeKeywords.map (fun kv => (kv.2.map (fun k => strCount text k)).sum)).sum
    let scientific_bonus := min ((scientific_word_count : ℚ) / (word_count : ℚ)) 0.3
    let semantic_density := basic_density + scientific_bonus
    max 0.0 (min semantic_density 1.0)

/-- The high-urgency word list of `_calculate_urgency`
(src/challenge_processor.py:339). -/
def highUrgencyWords : List String :=
  ["urgent", "immediate", "critical", "emergency", "now", "quickly"]

/-- The low-urgency word list of `_calculate_urgency`
(src/challenge_processor.py:345). -/
def lowUrgencyWords : List String :=
  ["eventually", "someday", "general", "broadly", "theoretically"]

/-- `ChallengeProcessor._calculate_urgency`
(src/challenge_processor.py:333-358): base 0.5, plus 0.2 per high-urgency
word present and -0.1 per low-urgency word present (the loop sums to the
weighted counts below), plus capped question-mark and exclamation-mark
bonuses, clamped to the unit interval. -/
def calculateUrgency (text : String) : ℚ :=
  let base : ℚ := 0.5
  let s1 := base + 0.2 * ((highUrgencyWords.filter (fun w => strContains text w)).length : ℚ)
  let s2 := s1 - 0.1 * ((lowUrgencyWords.filter (fun w => strContains text w)).length : ℚ)
  let question_marks := strCount text "?"
  let s3 := s2 + min ((question_marks : ℚ) * 0.1) 0.2
  let exclamations := strCount text "!"
  let s4 := s3 + min ((exclamations : ℚ) * 0.15) 0.3
  max 0.0 (min s4 1.0)

end RFTBot
namespace RFTBot

/-- The character probability count/len used by `_calculate_text_entropy`
(`probability = count / text_length`, src/challenge_processor.py:293). -/
noncomputable def charProb (s : List Char) (c : Char) : ℝ :=
  (s.count c : ℝ) / (s.length : ℝ)

/-- The entropy accumulation loop of `_calculate_text_entropy`
(src/challenge_processor.py:288-295): starting from 0.0, for each distinct
character (one per entry of the `char_counts` dictionary) with positive
probability, subtract `p * log2 p`. -/
noncomputable def rawTextEntropy (s : List Char) : ℝ :=
  s.dedup.foldl
    (fun acc c =>
      let p := charProb s c
      if 0 < p then acc - p * Real.logb 2 p else acc) 0

/-- `ChallengeProcessor._calculate_text_entropy`
(src/challenge_processor.py:277-300): 0.0 for empty text, otherwise the
accumulated entropy normalized by `min(entropy / 4.5, 1.0)`. -/
noncomputable def calculateTextEntropy (s : List Char) : ℝ :=
  if s = [] then 0 else min (rawTextEntropy s / 4.5) 1

/-- The textbook Shannon entropy named by the claim:
H = -Σ_c p_c * log2 p_c over the characters of the text. -/
noncomputable def shannonEntropy (s : List Char) : ℝ :=
  -∑ c in s.toFinset, charProb s c * Real.logb 2 (charProb s c)

/-- The accumulation loop subtracts exactly the listed terms. -/
theorem foldl_entropy_eq (s : List Char) (l : List Char) (a : ℝ)
    (h : ∀ c ∈ l, 0 < charProb s c) :
    l.foldl
      (fun acc c =>
        let p := charProb s c
        if 0 < p then acc - p * Real.logb 2 p else acc) a =
    a - ((l.map (fun c => charProb s c * Real.logb 2 (charProb s c))).sum) := by
  induction l generalizing a with
  | nil => simp
  | cons c l ih =>
      have hc : 0 < charProb s c := h c (List.mem_cons_self c l)
      rw [List.foldl_cons]
      simp only [hc, if_true]
      rw [ih _ (fun x hx => h x (List.mem_cons_of_mem c hx))]
      simp only [List.map_cons, List.sum_cons]
      ring

/-- Each step of the accumulation loop can only increase the accumulator,
given that every listed character has probability at most 1. -/
theorem foldl_entropy_ge (s : List Char) (l : List Char) (a : ℝ)
    (h : ∀ c ∈ l, charProb s c ≤ 1) :
    a ≤ l.foldl
      (fun acc c =>
        let p := charProb s c
        if 0 < p then acc - p * Real.logb 2 p else acc) a := by
  induction l generalizing a with
  | nil => simp
  | cons c l ih =>
      rw [List.foldl_cons]
      refine le_trans ?_ (ih _ (fun x hx => h x (List.mem_cons_of_mem c hx)))
      simp only
      split_ifs with hp
      · have hlog : Real.logb 2 (charProb s c) ≤ 0 :=
          Real.logb_nonpos (by norm_num) (le_of_lt hp) (h c (List.mem_cons_self c l))
        nlinarith [mul_nonneg (le_of_lt hp) (neg_nonneg.2 hlog)]
      · exact le_rfl

/-- Character probabilities never exceed 1. -/
theorem charProb_le_one (s : List Char) (c : Char) : charProb s c ≤ 1 := by
  unfold charProb
  rcases Nat.eq_zero_or_pos s.length with h | h
  · simp [h]
  · rw [div_le_one (by positivity)]
    exact_mod_cast List.count_le_length c s

/-- The accumulated entropy is nonnegative. -/
theorem rawTextEntropy_nonneg (s : List Char) : 0 ≤ rawTextEntropy s := by
  unfold rawTextEntropy
  exact foldl_entropy_ge s s.dedup 0 (fun c _ => charProb_le_one s c)

/-- Deduplicating does not change the character set. -/
theorem toFinset_dedup_list (s : List Char) : s.dedup.toFinset = s.toFinset := by
  ext c
  simp [List.mem_toFinset, List.mem_dedup]

/-- The accumulation loop computes exactly the negated Shannon sum. -/
theorem rawTextEntropy_eq_shannon (s : List Char) (hs : s ≠ []) :
    rawTextEntropy s = shannonEntropy s := by
  have hlen : 0 < s.length := List.length_pos.2 hs
  have hpos : ∀ c ∈ s.dedup, 0 < charProb s c := by
    intro c hc
    have hmem : c ∈ s := List.mem_dedup.1 hc
    have hcount : 0 < s.count c := List.count_pos_iff.2 hmem
    unfold charProb
    positivity
  unfold rawTextEntropy shannonEntropy
  rw [foldl_entropy_eq s s.dedup 0 hpos]
  rw [← toFinset_dedup_list s, List.sum_toFinset _ (List.nodup_dedup s)]
  ring

/-- C4. For every text, `_calculate_text_entropy` returns
`min(H / 4.5, 1.0)` where H is the textbook Shannon entropy of the
character-frequency distribution, and it returns 0.0 for the empty string. -/
theorem text_entropy_is_normalized_shannon :
    (∀ s : List Char, s ≠ [] → calculateTextEntropy s = min (shannonEntropy s / 4.5) 1) ∧
    calculateTextEntropy [] = 0 := by
  constructor
  · intro s hs
    unfold calculateTextEntropy
    rw [if_neg hs, rawTextEntropy_eq_shannon s hs]
  · simp [calculateTextEntropy]

/-- Witness for C4: the theorem applied to the one-character text "a". -/
theorem text_entropy_is_normalized_shannon_witness :
    calculateTextEntropy ['a'] = min (shannonEntropy ['a'] / 4.5) 1 :=
  text_entropy_is_normalized_shannon.1 ['a'] (by simp)

/-- The clamp `max(0.0, min(x, 1.0))` always lands in the unit interval. -/
theorem clamp01 (a : ℚ) : 0 ≤ max 0.0 (min a 1.0) ∧ max 0.0 (min a 1.0) ≤ 1 := by
  constructor
  · calc (0 : ℚ) ≤ 0.0 := by norm_num
      _ ≤ max 0.0 (min a 1.0) := le_max_left _ _
  · apply max_le (by norm_num)
    calc min a 1.0 ≤ 1.0 := min_le_right _ _
      _ ≤ 1 := by norm_num

/-- Bounds for `_calculate_complexity`. -/
theorem calculateComplexity_bounds (text : String) (techMatches : ℕ) :
    0 ≤ calculateComplexity text techMatches ∧ calculateComplexity text techMatches ≤ 1 := by
  unfold calculateComplexity
  dsimp only
  split_ifs with h
  · norm_num
  · exact clamp01 _

/-- Bounds for `_calculate_semantic_density`. -/
theorem calculateSemanticDensity_bounds (text : String) :
    0 ≤ calculateSemanticDensity text ∧ calculateSemanticDensity text ≤ 1 := by
  unfold calculateSemanticDensity
  dsimp only
  split_ifs with h
  · norm_num
  · exact clamp01 _

/-- Bounds for `_calculate_text_entropy`. -/
theorem calculateTextEntropy_bounds (s : List Char) :
    0 ≤ calculateTextEntropy s ∧ calculateTextEntropy s ≤ 1 := by
  unfold calculateTextEntropy
  split_ifs with h
  · norm_num
  · constructor
    · exact le_min (div_nonneg (rawTextEntropy_nonneg s) (by norm_num)) (by norm_num)
    · exact min_le_right _ _

/-- Bounds for `_calculate_urgency`. -/
theorem calculateUrgency_bounds (text : String) :
    0 ≤ calculateUrgency text ∧ calculateUrgency text ≤ 1 := by
  unfold calculateUrgency
  exact clamp01 _

/-- C10. The complexity, semantic_density, entropy and urgency fields of the
dictionary returned by `process_challenge` all lie in the closed unit
interval; `process_challenge` computes them from the normalized text, so
quantifying over an arbitrary text (and an arbitrary technical regex match
count) covers every input. -/
theorem process_challenge_fields_in_unit_interval (text : String) (techMatches : ℕ) :
    (0 ≤ calculateComplexity text techMatches ∧ calculateComplexity text techMatches ≤ 1) ∧
    (0 ≤ calculateSemanticDensity text ∧ calculateSemanticDensity text ≤ 1) ∧
    (0 ≤ calculateTextEntropy text.data ∧ calculateTextEntropy text.data ≤ 1) ∧
    (0 ≤ calculateUrgency text ∧ calculateUrgency text ≤ 1) :=
  ⟨calculateComplexity_bounds text techMatches, calculateSemanticDensity_bounds text,
   calculateTextEntropy_bounds text.data, calculateUrgency_bounds text⟩

end RFTBot
